import Mathlib

/-!
Verification of the website-chatbot core (`complete_app.py`): the text
extraction pipeline (`scrape_website`), the prompt construction
(`ask_groq`), and the session-state transitions of the interactive
handlers.  Text is modelled as `List Char` (one entry per Unicode code
point, matching Python string indexing/length); the parsed markup tree is
a mutual inductive mirroring the navigable node tree the HTML parser
produces.  The two outbound network calls are modelled as explicit
parameters (a fetch outcome, a completion oracle).
-/

/-- Characters Python `str.split()` / `str.strip()` treat as whitespace
(ASCII subset, which covers every input considered here). -/
def isSpace (c : Char) : Bool :=
  c = ' ' || c = '\t' || c = '\n' || c = '\r' || c = '\x0b' || c = '\x0c'

/-- Convenience: the character list of a string literal. -/
def chars (s : String) : List Char := s.data

/-- Python `str.strip()`: drop leading and trailing whitespace. -/
def stripChars (l : List Char) : List Char :=
  ((l.dropWhile isSpace).reverse.dropWhile isSpace).reverse

/-- Accumulator worker for `splitWs` (Python `str.split()` with no
argument: split on whitespace runs, discarding empty fields). -/
def wordsAux : List Char → List Char → List (List Char)
  | [], acc => if acc.isEmpty then [] else [acc.reverse]
  | c :: cs, acc =>
    if isSpace c then
      if acc.isEmpty then wordsAux cs [] else acc.reverse :: wordsAux cs []
    else wordsAux cs (c :: acc)

/-- Python `str.split()` with no argument. -/
def splitWs (l : List Char) : List (List Char) := wordsAux l []

/-- Python `sep.join(parts)`. -/
def joinSep (sep : List Char) : List (List Char) → List Char
  | [] => []
  | [x] => x
  | x :: y :: rest => x ++ sep ++ joinSep sep (y :: rest)

/-- The whitespace collapse `' '.join(website_text.split())` from
`scrape_website`. -/
def collapseWs (l : List Char) : List Char := joinSep [' '] (splitWs l)

/-- Python `text.replace(". ", ".\n")`: left-to-right, non-overlapping. -/
def replDot : List Char → List Char
  | [] => []
  | [c] => [c]
  | c1 :: c2 :: rest =>
    if c1 = '.' ∧ c2 = ' ' then '.' :: '\n' :: replDot rest
    else c1 :: replDot (c2 :: rest)

/-- The truncation marker appended by `scrape_website` when the cleaned
text exceeds 15,000 characters. -/
def truncMarker : List Char := chars "\n\n[Content truncated...]"

/-- The size limit step of `scrape_website`:
`if len(website_text) > 15000: website_text = website_text[:15000] + marker`. -/
def limitText (website_text : List Char) : List Char :=
  if website_text.length > 15000 then website_text.take 15000 ++ truncMarker
  else website_text

/-- Python `url.startswith(pat)`. -/
def pyStartsWith (l pat : List Char) : Bool := l.take pat.length = pat

/-- Python `pat in l` (substring test). -/
def occursIn (pat : List Char) : List Char → Bool
  | [] => pyStartsWith [] pat
  | c :: rest => pyStartsWith (c :: rest) pat || occursIn pat rest

/-- The URL normalization at the top of `scrape_website`:
`if not url.startswith('http'): url = 'https://' + url`. -/
def normalizeUrl (url : List Char) : List Char :=
  if pyStartsWith url (chars "http") then url else chars "https://" ++ url

/-- Modelled from the spec: a URL "has a URL scheme" (the spec speaks of
inputs that "lack a scheme"); a scheme is present exactly when the
scheme separator `://` occurs in the URL.  The source has no such check
(it only tests `startswith('http')`), so this claim-side predicate is
needed to compare the spec's wording with the code. -/
def urlHasScheme (url : List Char) : Bool := occursIn (chars "://") url

mutual
/-- A node of the navigable markup tree the HTML parser produces: either
a text node or an element with a tag, attributes, and children. -/
inductive Node where
  | text (s : List Char)
  | elem (tag : String) (attrs : List (String × String)) (children : NodeList)

/-- A sequence of sibling nodes (kept as its own inductive so that all
tree traversals are structural and reduce inside the kernel). -/
inductive NodeList where
  | nil
  | cons (n : Node) (l : NodeList)
end

/-- Build a `NodeList` from a plain list of nodes. -/
def NodeList.ofList : List Node → NodeList
  | [] => .nil
  | n :: ns => .cons n (NodeList.ofList ns)

/-- Element constructor taking a plain list of children. -/
def el (tag : String) (attrs : List (String × String)) (cs : List Node) : Node :=
  .elem tag attrs (NodeList.ofList cs)

/-- Text-node constructor from a string literal. -/
def tx (s : String) : Node := .text s.data

/-- The tags removed by `scrape_website` before extraction:
`soup(["script", "style", "nav", "footer", "header"])` + `decompose()`. -/
def bannedTags : List String := ["script", "style", "nav", "footer", "header"]

/-- Whether a tag is in the removed set. -/
def banned (tag : String) : Bool := bannedTags.contains tag

mutual
/-- Removal of a single node: a banned element disappears with its whole
subtree (as `decompose()` does); anything else keeps its (pruned)
children. -/
def pruneN : Node → Option Node
  | .text s => some (.text s)
  | .elem tag attrs cs =>
    if banned tag then none else some (.elem tag attrs (pruneL cs))

/-- Removal of banned elements from a sibling sequence. -/
def pruneL : NodeList → NodeList
  | .nil => .nil
  | .cons n l =>
    match pruneN n with
    | none => pruneL l
    | some m => .cons m (pruneL l)
end

mutual
/-- All text fragments below a node, in document order. -/
def nodeTexts : Node → List (List Char)
  | .text s => [s]
  | .elem _ _ cs => listTexts cs

/-- All text fragments below a sibling sequence, in document order. -/
def listTexts : NodeList → List (List Char)
  | .nil => []
  | .cons n l => nodeTexts n ++ listTexts l
end

/-- BeautifulSoup `get_text(strip=True)`: strip every descendant string
and concatenate. -/
def getTextStrip (n : Node) : List Char := ((nodeTexts n).map stripChars).flatten

mutual
/-- `find_all(tags)` below one node: preorder (document order). -/
def findAllN (tags : List String) : Node → List Node
  | .text _ => []
  | .elem tag attrs cs =>
    (if tags.contains tag then [Node.elem tag attrs cs] else []) ++ findAllL tags cs

/-- `find_all(tags)` over a sibling sequence. -/
def findAllL (tags : List String) : NodeList → List Node
  | .nil => []
  | .cons n l => findAllN tags n ++ findAllL tags l
end

mutual
/-- BeautifulSoup `Tag.string`: a text node is its own string; an
element with exactly one child takes that child's string; anything else
has none. -/
def nodeString : Node → Option (List Char)
  | .text s => some s
  | .elem _ _ cs => singleChildString cs

/-- Helper for `nodeString`: the string of a one-element child list. -/
def singleChildString : NodeList → Option (List Char)
  | .cons c .nil => nodeString c
  | _ => none
end

/-- Attribute lookup, `tag.get(key)`. -/
def getAttr (n : Node) (key : String) : Option String :=
  match n with
  | .text _ => none
  | .elem _ attrs _ => attrs.lookup key

/-- The `TITLE:` fragment: `if soup.title and soup.title.string:
all_text.append(f"TITLE: {soup.title.string.strip()}")` (an empty string
is falsy in Python, hence the non-emptiness test). -/
def titleFrag (doc : NodeList) : List (List Char) :=
  match (findAllL ["title"] doc).head? with
  | some t =>
    match nodeString t with
    | some s => if s ≠ [] then [chars "TITLE: " ++ stripChars s] else []
    | none => []
  | none => []

/-- The meta-description scan: first `meta` whose `name` attribute is
`description` and whose `content` attribute is truthy; a matching meta
with empty/absent content does not stop the scan (the `break` sits
inside `if content:`). -/
def findDescription : List Node → Option (List Char)
  | [] => none
  | m :: ms =>
    if getAttr m "name" = some "description" then
      match getAttr m "content" with
      | some c => if c ≠ "" then some (stripChars (chars c)) else findDescription ms
      | none => findDescription ms
    else findDescription ms

/-- The `DESCRIPTION:` fragment built from the meta scan. -/
def descFrag (doc : NodeList) : List (List Char) :=
  match findDescription (findAllL ["meta"] doc) with
  | some d => [chars "DESCRIPTION: " ++ d]
  | none => []

/-- Heading fragments: `h1`–`h4` in document order, kept when the
stripped text is truthy and longer than 3, emitted as `f"\n{text}"`. -/
def headingFrags (doc : NodeList) : List (List Char) :=
  (findAllL ["h1", "h2", "h3", "h4"] doc).filterMap fun hd =>
    let t := getTextStrip hd
    if t ≠ [] ∧ t.length > 3 then some ('\n' :: t) else none

/-- Paragraph fragments: `p` in document order, kept when the stripped
text is truthy and longer than 30, emitted verbatim. -/
def paragraphFrags (doc : NodeList) : List (List Char) :=
  (findAllL ["p"] doc).filterMap fun p =>
    let t := getTextStrip p
    if t ≠ [] ∧ t.length > 30 then some t else none

/-- List-item fragments: `li` in document order, kept when the stripped
text is truthy and longer than 10, emitted as `f"• {text}"`. -/
def listItemFrags (doc : NodeList) : List (List Char) :=
  (findAllL ["li"] doc).filterMap fun li =>
    let t := getTextStrip li
    if t ≠ [] ∧ t.length > 10 then some (chars "• " ++ t) else none

/-- The `all_text` accumulator of `scrape_website`: title, description,
headings, paragraphs, list items, in that order. -/
def all_text (doc : NodeList) : List (List Char) :=
  titleFrag doc ++ descFrag doc ++ headingFrags doc ++ paragraphFrags doc
    ++ listItemFrags doc

/-- Steps 3–8 of the extractor on an (already pruned) tree: join the
fragments with blank lines, collapse whitespace, reinsert newlines after
sentence ends. -/
def assembleText (doc : NodeList) : List Char :=
  replDot (collapseWs (joinSep (chars "\n\n") (all_text doc)))

/-- The cleaned text of `scrape_website` before the size limit: banned
elements removed, fragments assembled. -/
def cleanedText (doc : NodeList) : List Char := assembleText (pruneL doc)

/-- The extracted text of `scrape_website` including the size limit. -/
def extractContent (doc : NodeList) : List Char := limitText (cleanedText doc)

/-- Result record of `scrape_website` / the backend functions:
`{'success': bool, 'message': str, 'content': str}`. -/
structure ScrapeResult where
  success : Bool
  message : List Char
  content : List Char
deriving DecidableEq

/-- Extraction plus the final content validation of `scrape_website`:
empty or shorter than 200 characters fails. -/
def extractResult (doc : NodeList) : ScrapeResult :=
  let website_text := extractContent doc
  if website_text = [] ∨ website_text.length < 200 then
    { success := false
      message := chars "Could not extract enough content. Try a different URL."
      content := [] }
  else
    { success := true
      message := chars ("Successfully scraped! Extracted "
        ++ toString website_text.length ++ " characters.")
      content := website_text }

/-- The exceptions the `try` block of `scrape_website` can catch: the
two dedicated clauses (`requests.exceptions.Timeout`,
`requests.exceptions.ConnectionError`) and everything else.  An
`HTTPError` raised by `raise_for_status()` is neither a `Timeout` nor a
`ConnectionError`, so it is listed separately to record where it lands. -/
inductive ScrapeExc where
  | timeout
  | connectionError
  | httpError (msg : List Char)
  | other (msg : List Char)
deriving DecidableEq

/-- Outcome of the fetch phase (`requests.get` + `raise_for_status` +
parse): either a parsed node tree or a raised exception. -/
inductive FetchStep where
  | ok (doc : NodeList)
  | exc (e : ScrapeExc)

/-- The `except` clauses of `scrape_website`.  `HTTPError` matches only
the final blanket `except Exception` clause, so it produces exactly the
same result as any other unclassified exception. -/
def handleScrapeExc : ScrapeExc → ScrapeResult
  | .timeout =>
    { success := false
      message := chars "Request timeout. Website took too long to respond."
      content := [] }
  | .connectionError =>
    { success := false
      message := chars "Connection error. Check your internet or try a different URL."
      content := [] }
  | .httpError m =>
    { success := false, message := chars "Error: " ++ m, content := [] }
  | .other m =>
    { success := false, message := chars "Error: " ++ m, content := [] }

/-- `scrape_website`, given the outcome of its single fetch attempt:
successful fetches go through extraction and validation, raised
exceptions through the `except` clauses. -/
def scrape_website : FetchStep → ScrapeResult
  | .ok doc => extractResult doc
  | .exc e => handleScrapeExc e

/-- Modelled from the library contract used by the source:
`requests.Response.raise_for_status()` raises `HTTPError` exactly for
4xx/5xx status codes. -/
def raise_for_status (status : Nat) : Bool :=
  decide (400 ≤ status ∧ status < 600)

/-- A chat message `{"role": ..., "content": ...}`. -/
structure Message where
  role : String
  content : String
deriving DecidableEq

/-- The Streamlit session state fields of the app. -/
structure SessionState where
  website_scraped : Bool
  website_content : List Char
  website_url : String
  messages : List Message
  chat_history : List Message
  api_validated : Bool
deriving DecidableEq

/-- The scrape-button handler (the branch reached once a URL is given
and the key is validated), applied to the result of `scrape_website`:
on success the document, URL and both histories are replaced; on
failure only `website_scraped` is assigned (to `False`). -/
def scrapeButtonHandler (s : SessionState) (url_input : String)
    (result : ScrapeResult) : SessionState :=
  if result.success then
    { s with
      website_scraped := true
      website_content := result.content
      website_url := url_input
      messages := []
      chat_history := [] }
  else
    { s with website_scraped := false }

/-- The `chat_history` update of the main ask-button handler: on success
append the user/assistant pair, then
`if len(chat_history) > 8: chat_history = chat_history[-8:]`. -/
def mainAskUpdate (chat_history : List Message) (question answer : String)
    (success : Bool) : List Message :=
  if success then
    let h2 := chat_history ++ [⟨"user", question⟩, ⟨"assistant", answer⟩]
    if h2.length > 8 then h2.drop (h2.length - 8) else h2
  else chat_history

/-- The `chat_history` update of the quick-question handler: on success
append the user/assistant pair; this handler has no length trim. -/
def quickAskUpdate (chat_history : List Message) (question answer : String)
    (success : Bool) : List Message :=
  if success then
    chat_history ++ [⟨"user", question⟩, ⟨"assistant", answer⟩]
  else chat_history

/-- An apostrophe (kept out of string literals). -/
def apos : String := (Char.ofNat 39).toString

/-- The system message content of `ask_groq` (URL, extracted content,
instruction block). -/
def systemPrompt (website_url website_content : String) : String :=
  "You are a helpful AI assistant answering questions about websites.\n\nWEBSITE URL: "
    ++ website_url
    ++ "\n\nWEBSITE CONTENT:\n"
    ++ website_content
    ++ "\n\nINSTRUCTIONS:\n- Answer using ONLY the website content above\n- If info is not available, say \"I don"
    ++ apos
    ++ "t see that information on this website\"\n- Be helpful, accurate, and concise\n- Provide specific details from the website\n- Format answers clearly with proper paragraphs\n- Don"
    ++ apos
    ++ "t make up information"

/-- The message list built by `ask_groq`: the system message, then
`chat_history[-4:]` when the history is non-empty, then the new user
question. -/
def buildMessages (website_url website_content question : String)
    (chat_history : List Message) : List Message :=
  let messages : List Message := [⟨"system", systemPrompt website_url website_content⟩]
  let messages :=
    if chat_history.length > 0 then
      messages ++ chat_history.drop (chat_history.length - 4)
    else messages
  messages ++ [⟨"user", question⟩]

/-- Result record of `ask_groq`: `{'success': bool, 'answer': str}`. -/
structure AskResult where
  success : Bool
  answer : String
deriving DecidableEq

/-- The error-message rewriting of the `except` clause of `ask_groq`. -/
def mapGroqError (e : String) : String :=
  if occursIn (chars "authentication") (e.data.map Char.toLower) then
    "Invalid API key. Please check your key."
  else if occursIn (chars "rate limit") (e.data.map Char.toLower) then
    "Rate limit exceeded. Please wait and try again."
  else e

/-- What `ask_groq` does with the completion call's outcome: a reply is
stripped and returned, an exception message is rewritten and prefixed
with `Error: `. -/
def handleCompletion (r : Except String String) : AskResult :=
  match r with
  | .ok answer => { success := true, answer := ⟨stripChars answer.data⟩ }
  | .error e => { success := false, answer := "Error: " ++ mapGroqError e }

/-- The emptiness check of `ask_groq`:
`if not question or len(question.strip()) == 0`. -/
def isBlank (question : String) : Bool := (stripChars question.data).isEmpty

/-- `ask_groq`, with the completion endpoint abstracted as an oracle
from the message list to a reply or an exception: a blank question is
rejected before the oracle can be consulted; otherwise the message list
is built and sent in a single attempt. -/
def ask_groq (complete : List Message → Except String String)
    (website_url website_content question : String)
    (chat_history : List Message) : AskResult :=
  if isBlank question then
    { success := false, answer := "Please enter a valid question." }
  else
    handleCompletion (complete (buildMessages website_url website_content question chat_history))

/-- The round-trip markup of the spec, as the parser's node tree:
`<html><title>Acme</title><body><h1>Welcome to Acme</h1><p>Acme provides
widget manufacturing services to clients worldwide since 1990.</p></body></html>`. -/
def acmeDoc : NodeList := NodeList.ofList [
  el "html" [] [
    el "title" [] [tx "Acme"],
    el "body" [] [
      el "h1" [] [tx "Welcome to Acme"],
      el "p" [] [tx "Acme provides widget manufacturing services to clients worldwide since 1990."]]]]

/-- A document consisting of a single paragraph of `n` letters `a`
(used to exercise the size limit and the validation threshold). -/
def pDoc (n : Nat) : NodeList :=
  NodeList.cons (Node.elem "p" [] (NodeList.cons (Node.text (List.replicate n 'a')) NodeList.nil)) NodeList.nil

/-- A `chat_history` of 8 entries (4 user/assistant exchanges). -/
def hist8 : List Message :=
  [⟨"user", "q1"⟩, ⟨"assistant", "a1"⟩, ⟨"user", "q2"⟩, ⟨"assistant", "a2"⟩,
   ⟨"user", "q3"⟩, ⟨"assistant", "a3"⟩, ⟨"user", "q4"⟩, ⟨"assistant", "a4"⟩]

/-- A `chat_history` of 10 entries (5 user/assistant exchanges). -/
def hist10 : List Message :=
  hist8 ++ [⟨"user", "q5"⟩, ⟨"assistant", "a5"⟩]

/-- A session state in which a page has already been scraped
successfully. -/
def scrapedState : SessionState :=
  { website_scraped := true
    website_content := chars "old page text"
    website_url := "old.example.com"
    messages := [⟨"user", "x"⟩, ⟨"assistant", "y"⟩]
    chat_history := [⟨"user", "x"⟩, ⟨"assistant", "y"⟩]
    api_validated := true }

mutual
/-- No element with a banned tag occurs anywhere below this node. -/
def noBannedN : Node → Bool
  | .text _ => true
  | .elem tag _ cs => !banned tag && noBannedL cs

/-- No element with a banned tag occurs anywhere in this sequence. -/
def noBannedL : NodeList → Bool
  | .nil => true
  | .cons n l => noBannedN n && noBannedL l
end

/-- C8 counterexample: `ftp://example.com` already has a URL scheme, yet
the normalization step prefixes `https://` anyway, because the code only
tests `startswith('http')` — refuting "a url that already has a scheme
is passed through unchanged". -/
theorem normalizeUrl_scheme_counterexample :
    urlHasScheme (chars "ftp://example.com") = true ∧
    normalizeUrl (chars "ftp://example.com") ≠ chars "ftp://example.com" := by
  decide

/-- C8 amended: the normalization prefixes `https://` exactly when the
input does not start with the four characters `http` (a literal
`startswith('http')` test, not a scheme check); inputs starting with
`http` pass through unchanged. -/
theorem normalizeUrl_startswith_spec (url : List Char) :
    (url.take 4 = chars "http" → normalizeUrl url = url) ∧
    (url.take 4 ≠ chars "http" → normalizeUrl url = chars "https://" ++ url) := by
  constructor
  · intro h
    simp [normalizeUrl, pyStartsWith, chars, h]
  · intro h
    simp only [normalizeUrl, pyStartsWith, chars]
    rw [if_neg]
    simp only [decide_eq_true_eq]
    exact fun hc => h hc

/-- C8 witness: `example.com` does not start with `http` and is
prefixed with `https://`. -/
theorem normalizeUrl_startswith_spec_witness :
    (chars "example.com").take 4 ≠ chars "http" ∧
    normalizeUrl (chars "example.com") = chars "https://" ++ chars "example.com" :=
  ⟨by decide, (normalizeUrl_startswith_spec (chars "example.com")).2 (by decide)⟩

/-- C2: starting from a full 8-entry history, one successful
quick-question ask leaves 10 entries in `chat_history` (the
quick-question handler appends the pair without the trim), while the
main ask handler restores the 8-entry cap on the same input — the
8-entry invariant claimed by the spec is broken by the quick-question
path. -/
theorem chat_history_quick_overflow :
    (quickAskUpdate hist8 "q5" "a5" true).length = 10 ∧
    (mainAskUpdate hist8 "q5" "a5" true).length = 8 := by
  decide

/-- C9 counterexample: on the spec's round-trip markup the extractor
DOES fail the final content validation (`success` is `False`), refuting
"does not fail the final content validation": after whitespace collapse
the whole output is 104 characters, below the 200-character threshold. -/
theorem acme_validation_counterexample :
    (extractResult acmeDoc).success = false ∧
    (extractResult acmeDoc).message
      = chars "Could not extract enough content. Try a different URL." := by
  decide

/-- C9 amended: on the round-trip markup the extracted text contains
`TITLE: Acme`, the heading text `Welcome to Acme`, and the paragraph
verbatim (as substrings — the whitespace collapse merges everything onto
one line), but its total length is 104 < 200, so the final content
validation fails. -/
theorem acme_extraction_amended :
    occursIn (chars "TITLE: Acme") (extractContent acmeDoc) = true ∧
    occursIn (chars "Welcome to Acme") (extractContent acmeDoc) = true ∧
    occursIn (chars "Acme provides widget manufacturing services to clients worldwide since 1990.")
      (extractContent acmeDoc) = true ∧
    (extractContent acmeDoc).length = 104 ∧
    (extractResult acmeDoc).success = false := by
  decide

/-- C5 amended: a failed scrape leaves the previously scraped document
text, the stored URL, both message histories and the validated-key flag
unchanged, but it does NOT leave the scraped flag unchanged — the
failure branch assigns `website_scraped = False`. -/
theorem scrape_failure_frame (s : SessionState) (u : String) (step : FetchStep)
    (h : (scrape_website step).success = false) :
    (scrapeButtonHandler s u (scrape_website step)).website_content = s.website_content ∧
    (scrapeButtonHandler s u (scrape_website step)).website_url = s.website_url ∧
    (scrapeButtonHandler s u (scrape_website step)).messages = s.messages ∧
    (scrapeButtonHandler s u (scrape_website step)).chat_history = s.chat_history ∧
    (scrapeButtonHandler s u (scrape_website step)).api_validated = s.api_validated ∧
    (scrapeButtonHandler s u (scrape_website step)).website_scraped = false := by
  simp [scrapeButtonHandler, h]

/-- C5 witness: a timed-out scrape on a state holding an earlier page. -/
theorem scrape_failure_frame_witness :
    (scrape_website (.exc .timeout)).success = false ∧
    ((scrapeButtonHandler scrapedState "new.example.com" (scrape_website (.exc .timeout))).website_content = scrapedState.website_content ∧
     (scrapeButtonHandler scrapedState "new.example.com" (scrape_website (.exc .timeout))).website_url = scrapedState.website_url ∧
     (scrapeButtonHandler scrapedState "new.example.com" (scrape_website (.exc .timeout))).messages = scrapedState.messages ∧
     (scrapeButtonHandler scrapedState "new.example.com" (scrape_website (.exc .timeout))).chat_history = scrapedState.chat_history ∧
     (scrapeButtonHandler scrapedState "new.example.com" (scrape_website (.exc .timeout))).api_validated = scrapedState.api_validated ∧
     (scrapeButtonHandler scrapedState "new.example.com" (scrape_website (.exc .timeout))).website_scraped = false) :=
  ⟨by decide, scrape_failure_frame scrapedState "new.example.com" (.exc .timeout) (by decide)⟩

/-- C5 counterexample: a scrape that fails (here: a fetch timeout) on a
session that had already scraped a page does NOT leave the session state
equal to its prior configuration — the scraped flag flips from `True` to
`False`. -/
theorem scrape_failure_counterexample :
    (scrape_website (.exc .timeout)).success = false ∧
    scrapeButtonHandler scrapedState "new.example.com" (scrape_website (.exc .timeout))
      ≠ scrapedState := by
  decide

/-- C6: a question that strips to nothing (in particular `""` and
`"   "`) makes `ask_groq` fail with the empty-question outcome, and the
result does not depend on the completion oracle at all — so no
completion request is issued; the non-blank question `"hi"` passes the
check, and `ask_groq` proceeds to build the message list and hand it to
the oracle. -/
theorem ask_groq_empty_question
    (complete complete2 : List Message → Except String String)
    (website_url website_content : String) (chat_history : List Message) :
    (∀ question : String, stripChars question.data = [] →
      ask_groq complete website_url website_content question chat_history
        = { success := false, answer := "Please enter a valid question." } ∧
      ask_groq complete website_url website_content question chat_history
        = ask_groq complete2 website_url website_content question chat_history) ∧
    ask_groq complete website_url website_content "" chat_history
      = { success := false, answer := "Please enter a valid question." } ∧
    ask_groq complete website_url website_content "   " chat_history
      = { success := false, answer := "Please enter a valid question." } ∧
    ask_groq complete website_url website_content "hi" chat_history
      = handleCompletion (complete (buildMessages website_url website_content "hi" chat_history)) := by
  refine ⟨fun q hq => ?_, ?_, ?_, ?_⟩
  · have hb : isBlank q = true := by simp [isBlank, hq]
    constructor <;> simp [ask_groq, hb]
  · simp [ask_groq, isBlank, stripChars, chars, isSpace]
  · have hb : isBlank "   " = true := by decide
    simp [ask_groq, hb]
  · have hb : isBlank "hi" = false := by decide
    simp [ask_groq, hb]

/-- C6 witness: the whitespace-only question `"  "` is rejected with the
empty-question outcome under two different completion oracles. -/
theorem ask_groq_empty_question_witness :
    stripChars ("  " : String).data = [] ∧
    (ask_groq (fun _ => Except.error "e1") "u" "c" "  " []
        = { success := false, answer := "Please enter a valid question." } ∧
     ask_groq (fun _ => Except.error "e1") "u" "c" "  " []
        = ask_groq (fun _ => Except.ok "a1") "u" "c" "  " []) :=
  ⟨by decide,
    (ask_groq_empty_question (fun _ => Except.error "e1") (fun _ => Except.ok "a1")
      "u" "c" []).1 "  " (by decide)⟩

/-- C3: for any model context and non-blank question, the message list
built by `ask_groq` is exactly the single system message, followed by
the last (at most) 4 context entries in their original order, followed
by the trailing user message with the new question; for a 10-entry
context the retained entries are exactly the 4 most recent ones
(`drop 6`). -/
theorem ask_groq_history_window (website_url website_content question : String)
    (chat_history : List Message) (_h : isBlank question = false) :
    buildMessages website_url website_content question chat_history
      = ⟨"system", systemPrompt website_url website_content⟩
          :: (chat_history.drop (chat_history.length - 4) ++ [⟨"user", question⟩]) ∧
    (chat_history.drop (chat_history.length - 4)).length ≤ 4 ∧
    (chat_history.length = 10 →
      chat_history.drop (chat_history.length - 4) = chat_history.drop 6) := by
  refine ⟨?_, ?_, ?_⟩
  · cases chat_history with
    | nil => simp [buildMessages]
    | cons m ms => simp [buildMessages]
  · simp [List.length_drop]
    omega
  · intro h10
    rw [h10]

/-- C3 witness: the concrete 10-entry history with question `"hi"`. -/
theorem ask_groq_history_window_witness :
    buildMessages "u" "c" "hi" hist10
      = ⟨"system", systemPrompt "u" "c"⟩
          :: (hist10.drop (hist10.length - 4) ++ [⟨"user", "hi"⟩]) ∧
    (hist10.drop (hist10.length - 4)).length ≤ 4 ∧
    (hist10.length = 10 → hist10.drop (hist10.length - 4) = hist10.drop 6) :=
  ask_groq_history_window "u" "c" "hi" hist10 (by decide)

theorem dropWhile_noSpace (l : List Char) (h : ∀ c ∈ l, isSpace c = false) :
    l.dropWhile isSpace = l := by
  cases l with
  | nil => rfl
  | cons c cs => simp [List.dropWhile_cons, h c (List.mem_cons_self c cs)]

theorem stripChars_noSpace (l : List Char) (h : ∀ c ∈ l, isSpace c = false) :
    stripChars l = l := by
  unfold stripChars
  rw [dropWhile_noSpace l h,
    dropWhile_noSpace l.reverse (fun c hc => h c (List.mem_reverse.mp hc)),
    List.reverse_reverse]

theorem wordsAux_noSpace : ∀ (l acc : List Char), (∀ c ∈ l, isSpace c = false) →
    wordsAux l acc = if (acc.reverse ++ l).isEmpty then [] else [acc.reverse ++ l]
  | [], acc, _ => by
      cases acc <;> simp [wordsAux]
  | c :: cs, acc, h => by
      have hc : isSpace c = false := h c (List.mem_cons_self c cs)
      rw [wordsAux, if_neg (by simp [hc])]
      rw [wordsAux_noSpace cs (c :: acc) (fun x hx => h x (List.mem_cons_of_mem c hx))]
      simp

theorem collapseWs_noSpace (l : List Char) (h : ∀ c ∈ l, isSpace c = false) :
    collapseWs l = l := by
  unfold collapseWs splitWs
  rw [wordsAux_noSpace l [] h]
  cases l with
  | nil => rfl
  | cons c cs => simp [joinSep]

theorem replDot_noSpaceChar : ∀ l : List Char, (∀ c ∈ l, ¬ c = ' ') → replDot l = l
  | [], _ => rfl
  | [_], _ => rfl
  | c1 :: c2 :: rest, h => by
      rw [replDot, if_neg (fun hx => h c2 (by simp) hx.2)]
      exact congrArg (c1 :: ·)
        (replDot_noSpaceChar (c2 :: rest) (fun x hx => h x (List.mem_cons_of_mem c1 hx)))

theorem noSpace_replicate (n : Nat) : ∀ c ∈ List.replicate n 'a', isSpace c = false := by
  intro c hc
  rw [List.eq_of_mem_replicate hc]
  rfl

theorem cleanedText_pDoc (n : Nat) (h : 30 < n) :
    cleanedText (pDoc n) = List.replicate n 'a' := by
  have h0 : List.replicate n 'a' ≠ [] := by
    simp only [ne_eq, List.replicate_eq_nil_iff]
    omega
  have hfa : findAllL ["p"] (pDoc n)
      = [Node.elem "p" [] (NodeList.cons (Node.text (List.replicate n 'a')) NodeList.nil)] := rfl
  have hg : getTextStrip (Node.elem "p" [] (NodeList.cons (Node.text (List.replicate n 'a')) NodeList.nil))
      = List.replicate n 'a' := by
    simp [getTextStrip, nodeTexts, listTexts, stripChars_noSpace _ (noSpace_replicate n)]
  have hp : paragraphFrags (pDoc n) = [List.replicate n 'a'] := by
    unfold paragraphFrags
    rw [hfa]
    simp only [List.filterMap_cons, List.filterMap_nil, hg]
    rw [if_pos ⟨h0, by simp only [List.length_replicate]; omega⟩]
  have hall : all_text (pDoc n) = [List.replicate n 'a'] := by
    unfold all_text
    rw [hp]
    rfl
  have hprune : pruneL (pDoc n) = pDoc n := rfl
  unfold cleanedText assembleText
  rw [hprune, hall]
  rw [show joinSep (chars "\n\n") [List.replicate n 'a'] = List.replicate n 'a' from rfl]
  rw [collapseWs_noSpace _ (noSpace_replicate n)]
  exact replDot_noSpaceChar _ (fun c hc => by rw [List.eq_of_mem_replicate hc]; decide)

/-- C1: the extracted text is never longer than 15,000 plus the
truncation marker (and so is the `content` field of the scrape result),
and whenever the cleaned text exceeds 15,000 characters the output is
exactly its first 15,000 characters with the marker appended. -/
theorem scrape_website_truncation_bound (doc : NodeList) :
    (extractContent doc).length ≤ 15000 + truncMarker.length ∧
    (extractResult doc).content.length ≤ 15000 + truncMarker.length ∧
    ((cleanedText doc).length > 15000 →
      extractContent doc = (cleanedText doc).take 15000 ++ truncMarker) := by
  have hb : (extractContent doc).length ≤ 15000 + truncMarker.length := by
    unfold extractContent limitText
    split
    next _ =>
      simp only [List.length_append, List.length_take]
      exact Nat.add_le_add_right (Nat.min_le_left _ _) _
    next h => omega
  refine ⟨hb, ?_, ?_⟩
  · unfold extractResult
    dsimp only
    split
    next _ => simp
    next _ => exact hb
  · intro h
    unfold extractContent limitText
    rw [if_pos h]

/-- C1 witness: a document whose single paragraph holds 20,000
characters is cleaned to 20,000 characters and truncated. -/
theorem scrape_website_truncation_bound_witness :
    (cleanedText (pDoc 20000)).length > 15000 ∧
    extractContent (pDoc 20000) = (cleanedText (pDoc 20000)).take 15000 ++ truncMarker := by
  have h : (cleanedText (pDoc 20000)).length > 15000 := by
    rw [cleanedText_pDoc 20000 (by norm_num)]
    simp only [List.length_replicate]
    norm_num
  exact ⟨h, (scrape_website_truncation_bound (pDoc 20000)).2.2 h⟩

theorem extractContent_pDoc250 : extractContent (pDoc 250) = List.replicate 250 'a' := by
  rw [extractContent, cleanedText_pDoc 250 (by norm_num)]
  unfold limitText
  rw [if_neg (by simp only [List.length_replicate]; norm_num)]

theorem scrape_pDoc250_success : (scrape_website (.ok (pDoc 250))).success = true := by
  show (extractResult (pDoc 250)).success = true
  unfold extractResult
  dsimp only
  rw [if_neg]
  · simp only [extractContent_pDoc250, List.length_replicate]
    norm_num [List.replicate_eq_nil_iff]

/-- C10: whenever a scrape succeeds, the handler replaces the document
text with the extraction output, stores the newly scraped URL, sets the
scraped flag, and clears both the display history and the model
context wholesale (only the validated-key flag is carried over). -/
theorem scrape_success_resets_state (s : SessionState) (u : String) (step : FetchStep)
    (h : (scrape_website step).success = true) :
    scrapeButtonHandler s u (scrape_website step) =
      { website_scraped := true
        website_content := (scrape_website step).content
        website_url := u
        messages := []
        chat_history := []
        api_validated := s.api_validated } := by
  simp [scrapeButtonHandler, h]

/-- C10 witness: a successful scrape of a 250-character page on a state
holding an earlier conversation. -/
theorem scrape_success_resets_state_witness :
    (scrape_website (.ok (pDoc 250))).success = true ∧
    scrapeButtonHandler scrapedState "new.example.com" (scrape_website (.ok (pDoc 250))) =
      { website_scraped := true
        website_content := (scrape_website (.ok (pDoc 250))).content
        website_url := "new.example.com"
        messages := []
        chat_history := []
        api_validated := scrapedState.api_validated } :=
  ⟨scrape_pDoc250_success,
    scrape_success_resets_state scrapedState "new.example.com" (.ok (pDoc 250))
      scrape_pDoc250_success⟩

mutual
theorem pruneN_idem : ∀ (n m : Node), pruneN n = some m → pruneN m = some m
  | .text _, m, h => by
      simp only [pruneN, Option.some.injEq] at h
      rw [← h]
      rfl
  | .elem t a cs, m, h => by
      by_cases hb : banned t
      · simp [pruneN, hb] at h
      · simp only [pruneN, hb, Bool.false_eq_true, if_false, Option.some.injEq] at h
        rw [← h]
        simp only [pruneN, hb, Bool.false_eq_true, if_false, Option.some.injEq]
        rw [pruneL_idem cs]

theorem pruneL_idem : ∀ l : NodeList, pruneL (pruneL l) = pruneL l
  | .nil => rfl
  | .cons n l => by
      cases hn : pruneN n with
      | none => simp only [pruneL, hn]; exact pruneL_idem l
      | some m =>
          simp only [pruneL, hn, pruneN_idem n m hn]
          rw [pruneL_idem l]
end

mutual
theorem noBannedN_pruneN : ∀ (n m : Node), pruneN n = some m → noBannedN m = true
  | .text _, m, h => by
      simp only [pruneN, Option.some.injEq] at h
      rw [← h]
      rfl
  | .elem t a cs, m, h => by
      by_cases hb : banned t
      · simp [pruneN, hb] at h
      · simp only [pruneN, hb, Bool.false_eq_true, if_false, Option.some.injEq] at h
        rw [← h]
        simp only [noBannedN, hb, Bool.not_false, Bool.true_and]
        exact noBannedL_pruneL cs

theorem noBannedL_pruneL : ∀ l : NodeList, noBannedL (pruneL l) = true
  | .nil => rfl
  | .cons n l => by
      cases hn : pruneN n with
      | none => simp only [pruneL, hn]; exact noBannedL_pruneL l
      | some m =>
          simp only [pruneL, hn, noBannedL, noBannedN_pruneN n m hn, Bool.true_and]
          exact noBannedL_pruneL l
end

/-- C4: the removal pass eliminates every `script`/`style`/`nav`/
`footer`/`header` element (none remains anywhere in the pruned tree),
and the extractor's output on any document equals its output on the
document with all those subtrees already deleted — so text nested
inside such nodes can never reach the output: the output is computed
from a tree in which that text no longer exists. -/
theorem extractor_removes_banned_nodes (doc : NodeList) :
    noBannedL (pruneL doc) = true ∧
    extractContent (pruneL doc) = extractContent doc := by
  refine ⟨noBannedL_pruneL doc, ?_⟩
  unfold extractContent cleanedText
  rw [pruneL_idem]

theorem scrapeErrorMsg_ne_timeout (m : List Char) :
    chars "Error: " ++ m ≠ chars "Request timeout. Website took too long to respond." := by
  intro h
  have h2 := congrArg List.head? h
  rw [show chars "Error: " = 'E' :: chars "rror: " from rfl,
      show chars "Request timeout. Website took too long to respond."
        = 'R' :: chars "equest timeout. Website took too long to respond." from rfl] at h2
  simp at h2

theorem scrapeErrorMsg_ne_conn (m : List Char) :
    chars "Error: " ++ m ≠ chars "Connection error. Check your internet or try a different URL." := by
  intro h
  have h2 := congrArg List.head? h
  rw [show chars "Error: " = 'E' :: chars "rror: " from rfl,
      show chars "Connection error. Check your internet or try a different URL."
        = 'C' :: chars "onnection error. Check your internet or try a different URL." from rfl] at h2
  simp at h2

/-- C7 counterexample: an `HTTPError` raised for a non-2xx response
produces a result identical to that of an arbitrary unclassified
exception with the same message — there is no distinct HttpStatusError
failure kind; both are handled by the blanket `except Exception`
clause. -/
theorem http_status_error_conflated :
    scrape_website (.exc (.httpError (chars "404 Client Error: Not Found")))
      = scrape_website (.exc (.other (chars "404 Client Error: Not Found"))) := rfl

/-- C7 amended: a 4xx/5xx status makes `raise_for_status` raise, and the
resulting failure is reported through the generic exception branch with
message `Error: <msg>` — the same outcome as `Other(msg)`, though still
distinguishable (by message only) from the Timeout and ConnectionFailure
outcomes, each produced in a single attempt with no retry. -/
theorem http_status_error_generic (status : Nat) (m : List Char)
    (h4 : 400 ≤ status) (h6 : status < 600) :
    raise_for_status status = true ∧
    scrape_website (.exc (.httpError m))
      = { success := false, message := chars "Error: " ++ m, content := [] } ∧
    scrape_website (.exc (.httpError m)) = scrape_website (.exc (.other m)) ∧
    scrape_website (.exc (.httpError m)) ≠ scrape_website (.exc .timeout) ∧
    scrape_website (.exc (.httpError m)) ≠ scrape_website (.exc .connectionError) := by
  refine ⟨by simp [raise_for_status]; exact ⟨h4, h6⟩, rfl, rfl, ?_, ?_⟩
  · intro h
    exact scrapeErrorMsg_ne_timeout m (congrArg ScrapeResult.message h)
  · intro h
    exact scrapeErrorMsg_ne_conn m (congrArg ScrapeResult.message h)

/-- C7 witness: status 404 with the library's error text. -/
theorem http_status_error_generic_witness :
    raise_for_status 404 = true ∧
    scrape_website (.exc (.httpError (chars "404 Client Error: Not Found")))
      = { success := false
          message := chars "Error: " ++ chars "404 Client Error: Not Found"
          content := [] } ∧
    scrape_website (.exc (.httpError (chars "404 Client Error: Not Found")))
      = scrape_website (.exc (.other (chars "404 Client Error: Not Found"))) ∧
    scrape_website (.exc (.httpError (chars "404 Client Error: Not Found")))
      ≠ scrape_website (.exc .timeout) ∧
    scrape_website (.exc (.httpError (chars "404 Client Error: Not Found")))
      ≠ scrape_website (.exc .connectionError) :=
  http_status_error_generic 404 (chars "404 Client Error: Not Found")
    (by norm_num) (by norm_num)
